import Mathlib

set_option autoImplicit false
set_option linter.unusedVariables false
set_option linter.unusedTactic false
set_option linter.unreachableTactic false

namespace Kibitz

/-- JSON values as produced and consumed by the scripts through json.dump
and json.load. Python floats coming from random.random are modelled as
rationals. -/
inductive Json where
  | null
  | bool (b : Bool)
  | int (n : Int)
  | rat (q : ℚ)
  | str (s : String)
  | arr (elems : List Json)
  | obj (kvs : List (String × Json))

/-- Content of a file on the modelled filesystem: raw text written through
f.write, or a JSON document written through json.dump. By convention the
text constructor stands for content that json.load rejects; JSON-parseable
files are represented structurally with jsonData. -/
inductive FileData where
  | text (s : String)
  | jsonData (j : Json)

/-- Externally visible actions of a script run, recorded in order. -/
inductive Event where
  | print (s : String)
  | mkdir (d : String)
  | writeFile (path : String) (data : FileData)
  | readFile (path : String)
  | existsCheck (path : String)
  | sleep (secs : Nat)
  | getcwd
  | listdir (d : String)
  | pathInsert (idx : Nat) (p : String)
  | importMod (m : String)
  | call (fn : String)

/-- Python exceptions the modelled operations can raise. -/
inductive PyExc where
  | ioError (path : String)
  | jsonError (path : String)
  | typeError
  deriving DecidableEq

/-- The str(e) rendering used when an exception message is printed. -/
def PyExc.msg : PyExc → String
  | .ioError p => "io error: " ++ p
  | .jsonError p => "invalid json: " ++ p
  | .typeError => "type error"

/-- Behaviour of the external ws_mcp.main entry point, which is not part of
this repository: it may return a value (possibly an integer), raise
SystemExit with a status, or raise some other exception. -/
inductive ExtBehavior where
  | returns (v : Option Int)
  | exits (code : Nat)
  | raises (msg : String)
  deriving DecidableEq

/-- The modelled interpreter state: a flat filesystem of path/content
pairs, the set of created directories, the working directory, the event
trace so far, an abstract clock stream read by time.time and datetime.now,
a raw random stream feeding the random module, a fault stream deciding
which fallible I/O operations raise, the module search path, and the
oracle for the external ws_mcp package. -/
structure World where
  fs : List (String × FileData)
  dirs : List String
  cwd : String
  events : List Event
  clock : Nat → Nat
  clockIdx : Nat
  rand : Nat → Nat
  randIdx : Nat
  ioFault : Nat → Bool
  ioIdx : Nat
  sysPath : List String
  wsMcp : ExtBehavior

/-- Result of running a piece of script: a value and the final world, or an
uncaught exception together with the world at the moment it was raised. -/
inductive PyRes (α : Type) where
  | ok (v : α) (w : World)
  | exn (e : PyExc) (w : World)

/-- Sequencing that propagates an uncaught exception. -/
def PyRes.bind {α β : Type} (r : PyRes α) (f : α → World → PyRes β) : PyRes β :=
  match r with
  | .ok v w => f v w
  | .exn e w => .exn e w

/-- Event trace of a run, whether or not it ended in an exception. -/
def PyRes.trace {α : Type} : PyRes α → List Event
  | .ok _ w => w.events
  | .exn _ w => w.events

/-- Process exit status of a script run: 0 on completion, 1 on an
unhandled exception. -/
def PyRes.exitCode {α : Type} : PyRes α → Nat
  | .ok _ _ => 0
  | .exn _ _ => 1

/-- Append one event to the trace. -/
def World.emit (w : World) (e : Event) : World :=
  { w with events := w.events ++ [e] }

/-- Model of print: appends a print event. -/
def World.pr (w : World) (s : String) : World :=
  w.emit (Event.print s)

/-- Read the abstract clock, used by both time.time and datetime.now. -/
def World.readClock (w : World) : Nat × World :=
  (w.clock w.clockIdx, { w with clockIdx := w.clockIdx + 1 })

/-- Consume one raw draw from the random stream. -/
def World.draw (w : World) : Nat × World :=
  (w.rand w.randIdx, { w with randIdx := w.randIdx + 1 })

/-- Consume one fault bit; true means the next fallible operation raises. -/
def World.ioStep (w : World) : Bool × World :=
  (w.ioFault w.ioIdx, { w with ioIdx := w.ioIdx + 1 })

/-- Model of datetime.now().isoformat(): an injective rendering of the
abstract clock value as a timestamp string. -/
def isoformat (t : Nat) : String :=
  "1970-01-01T00:00:" ++ toString t

/-- datetime.now().isoformat() as a step: reads the clock once. -/
def now (w : World) : String × World :=
  let (t, w) := w.readClock
  (isoformat t, w)

/-- Model of random.randint lo hi: one draw, mapped into [lo, hi]. -/
def randint (lo hi : Nat) (w : World) : Nat × World :=
  let (d, w) := w.draw
  (lo + d % (hi + 1 - lo), w)

/-- Model of random.random: one draw, mapped to a rational in [0, 1) with
53-bit resolution like a CPython float from random. -/
def randomFloat (w : World) : ℚ × World :=
  let (d, w) := w.draw
  (((d % 2 ^ 53 : Nat) : ℚ) / 2 ^ 53, w)

/-- Look up the content of a path, first binding wins. -/
def lookupFile (fs : List (String × FileData)) (p : String) : Option FileData :=
  match fs with
  | [] => none
  | (q, d) :: rest => if q = p then some d else lookupFile rest p

/-- Overwrite or create a path, keeping its position like a rewrite of an
existing file. -/
def setFile (fs : List (String × FileData)) (p : String) (d : FileData) :
    List (String × FileData) :=
  match fs with
  | [] => [(p, d)]
  | (q, e) :: rest => if q = p then (p, d) :: rest else (q, e) :: setFile rest p d

/-- Look up a key in a JSON object's key/value list, first binding wins. -/
def jLookup (kvs : List (String × Json)) (k : String) : Option Json :=
  match kvs with
  | [] => none
  | (q, v) :: rest => if q = k then some v else jLookup rest k

/-- Python dict assignment d[k] = v: replace in place if the key exists,
otherwise append at the end, preserving insertion order. -/
def setKey (kvs : List (String × Json)) (k : String) (v : Json) :
    List (String × Json) :=
  match kvs with
  | [] => [(k, v)]
  | (q, e) :: rest => if q = k then (k, v) :: rest else (q, e) :: setKey rest k v

/-- Record a directory, keeping the list duplicate-free like the real
directory tree. -/
def addDir (d : String) (dirs : List String) : List String :=
  if d ∈ dirs then dirs else dirs ++ [d]

/-- os.makedirs(d, exist_ok=True): fallible; on success records the
directory and emits a mkdir event. -/
def makedirs (d : String) (w : World) : PyRes Unit :=
  let (bad, w) := w.ioStep
  if bad then PyRes.exn (PyExc.ioError d) w
  else PyRes.ok () (({ w with dirs := addDir d w.dirs } : World).emit (Event.mkdir d))

/-- open(path, 'w') followed by writing the whole content: fallible; on
success the filesystem is updated and a write event emitted. -/
def writeWhole (p : String) (d : FileData) (w : World) : PyRes Unit :=
  let (bad, w) := w.ioStep
  if bad then PyRes.exn (PyExc.ioError p) w
  else PyRes.ok () (({ w with fs := setFile w.fs p d } : World).emit (Event.writeFile p d))

/-- open(path, 'r') reading the whole content: raises on a fault bit or a
missing file; emits a read event on success. -/
def readWhole (p : String) (w : World) : PyRes FileData :=
  let (bad, w) := w.ioStep
  if bad then PyRes.exn (PyExc.ioError p) w
  else
    match lookupFile w.fs p with
    | none => PyRes.exn (PyExc.ioError p) w
    | some d => PyRes.ok d (w.emit (Event.readFile p))

/-- json.load on already-read content: structured JSON parses to itself,
raw text stands for content the parser rejects. -/
def jsonLoad (p : String) (d : FileData) (w : World) : PyRes Json :=
  match d with
  | FileData.text _ => PyRes.exn (PyExc.jsonError p) w
  | FileData.jsonData j => PyRes.ok j w

/-- Using a loaded document as a dict: anything but a JSON object makes
the dict operations of the update step raise. -/
def asObj (j : Json) (w : World) : PyRes (List (String × Json)) :=
  match j with
  | Json.obj kvs => PyRes.ok kvs w
  | _ => PyRes.exn PyExc.typeError w

/-- Subscripting package_data with 'scripts' and then assigning into the
result: raises unless the value at 'scripts' is an object. -/
def asScriptsObj (kvs : List (String × Json)) (w : World) : PyRes (List (String × Json)) :=
  match jLookup kvs "scripts" with
  | some (Json.obj scr) => PyRes.ok scr w
  | _ => PyRes.exn PyExc.typeError w

/-- os.listdir of the working directory: names of files directly in it
(paths without a separator) followed by the created directories. -/
def dirEntries (w : World) : List String :=
  (w.fs.map Prod.fst).filter (fun p => !(p.contains '/')) ++ w.dirs

/-- os.listdir('.') as a fallible step emitting a listdir event. -/
def listdirStep (w : World) : PyRes (List String) :=
  let (bad, w) := w.ioStep
  if bad then PyRes.exn (PyExc.ioError ".") w
  else PyRes.ok (dirEntries w) (w.emit (Event.listdir "."))

namespace TestAutoCommit

/-- The TypeScript template of src/test_auto_commit.py lines 21-35,
with the five interpolated holes in their textual order. -/
def test_ts_content (iso1 : String) (r1 r2 : Nat) (iso2 : String) (r3 : Nat) : String :=
  "\n// Auto-generated test file: " ++ iso1 ++
  "\nexport interface TestInterface_" ++ toString r1 ++
  " \x7b\n  id: string;\n  timestamp: number;\n  data: any;\n\x7d\n\nexport const testFunction_" ++
  toString r2 ++
  " = () => \x7b\n  console.log(\x27Test function called at: " ++ iso2 ++
  "\x27);\n  return Math.random();\n\x7d;\n\n// Random comment: " ++ toString r3 ++ "\n"

/-- The config_data dict literal of src/test_auto_commit.py lines 43-50,
with its three evaluated holes: the test id, the timestamp, and the random
value. -/
def configJson (tid : Nat) (iso3 : String) (rv : ℚ) : Json :=
  Json.obj
    [("test_id", Json.int tid),
     ("timestamp", Json.str iso3),
     ("settings", Json.obj
       [("auto_commit_test", Json.bool true),
        ("random_value", Json.rat rv)])]

/-- The body of the try block of src/test_auto_commit.py lines 59-71:
read package.json, parse it, default 'scripts' to an empty object when
absent, build the echo command (the right-hand side is evaluated first),
subscript into 'scripts', build the time-stamped key, assign, and rewrite
the file. -/
def update_package_json (w : World) : PyRes Unit :=
  (readWhole "package.json" w).bind fun d w =>
  (jsonLoad "package.json" d w).bind fun pd w =>
  (asObj pd w).bind fun kvs w =>
  let kvs := if (jLookup kvs "scripts").isSome then kvs
             else kvs ++ [("scripts", Json.obj [])]
  let (iso4, w) := now w
  let value := "echo \"Test script added at " ++ iso4 ++ "\""
  (asScriptsObj kvs w).bind fun scr w =>
  let (t2, w) := w.readClock
  let key := "test-auto-commit-" ++ toString t2
  let kvs := setKey kvs "scripts" (Json.obj (setKey scr key (Json.str value)))
  (writeWhole "package.json" (FileData.jsonData (Json.obj kvs)) w).bind fun _ w =>
  PyRes.ok () (w.pr "✅ Updated package.json with test script")

/-- Embedding of create_test_files, src/test_auto_commit.py lines 14-74. -/
def create_test_files (w : World) : PyRes Unit :=
  let w := w.emit (Event.call "create_test_files")
  (makedirs "src" w).bind fun _ w =>
  let (iso1, w) := now w
  let (r1, w) := randint 1000 9999 w
  let (r2, w) := randint 1000 9999 w
  let (iso2, w) := now w
  let (r3, w) := randint 1 1000000 w
  let content := test_ts_content iso1 r1 r2 iso2 r3
  let (t1, w) := w.readClock
  let test_file := "src/test_file_" ++ toString t1 ++ ".ts"
  (writeWhole test_file (FileData.text content) w).bind fun _ w =>
  let w := w.pr ("✅ Created test file: " ++ test_file)
  let (tid, w) := randint 1000 9999 w
  let (iso3, w) := now w
  let (rv, w) := randomFloat w
  let config := configJson tid iso3 rv
  (makedirs "data" w).bind fun _ w =>
  (writeWhole "data/config.json" (FileData.jsonData config) w).bind fun _ w =>
  let w := w.pr "✅ Created/updated data/config.json"
  let w := w.emit (Event.existsCheck "package.json")
  if (lookupFile w.fs "package.json").isSome then
    match update_package_json w with
    | PyRes.ok _ w => PyRes.ok () w
    | PyRes.exn e w => PyRes.ok () (w.pr ("⚠️ Could not update package.json: " ++ e.msg))
  else PyRes.ok () w

/-- The for-loop of src/test_auto_commit.py lines 88-94, over the indices
range(3): announce, sleep 60 seconds, and on all but the last index create
files again. -/
def mainLoop : List Nat → World → PyRes Unit
  | [], w => PyRes.ok () w
  | i :: rest, w =>
    let w := w.pr ("\n⏰ Waiting 60 seconds... (" ++ toString (i + 1) ++ "/3)")
    let w := w.emit (Event.sleep 60)
    if i < 2 then
      let w := w.pr ("🔧 Creating additional changes (round " ++ toString (i + 2) ++ ")...")
      (create_test_files w).bind fun _ w => mainLoop rest w
    else mainLoop rest w

/-- Embedding of main, src/test_auto_commit.py lines 76-100. The script
never consults its command line or environment, so they are unused
parameters. -/
def main (argv : List String) (env : List (String × String)) (w : World) : PyRes Unit :=
  let w := w.pr "🔧 Auto-commit test script starting..."
  let w := w.emit Event.getcwd
  let w := w.pr ("📁 Working directory: " ++ w.cwd)
  (create_test_files w).bind fun _ w =>
  let w := w.pr "\n🕐 Waiting for auto-commit agent to detect changes..."
  let w := w.pr "The auto-commit agent should create a branch within 3 minutes"
  let w := w.pr "Check the browser console for auto-commit agent logs"
  (mainLoop (List.range 3) w).bind fun _ w =>
  let w := w.pr "\n✅ Test complete!"
  let w := w.pr "If auto-commit is working, you should see:"
  let w := w.pr "1. Console logs showing auto-commit agent cycles"
  let w := w.pr "2. New Git branches created with auto-commit- prefix"
  let w := w.pr "3. Commits with the changed files"
  PyRes.ok () w

end TestAutoCommit

namespace TestGitFix

/-- The markdown template of src/test_git_fix.py lines 16-36 with its one
interpolated timestamp. -/
def git_test_content (iso : String) : String :=
  "\n# Git Test File\n\nThis file was created at " ++ iso ++
  " to test Git initialization.\n\n## Expected Behavior:\n1. Git should be initialized in the project directory\n2. This file should be detected as a change\n3. Auto-commit should create a branch after 3 minutes\n4. Branch should be visible in the project\n\n## Fixes Applied:\n- Added \x27type: BashCommand\x27 field to BashCommand calls in gitService.ts\n- Updated rootStore to preserve type field when processing BashCommand\n- Fixed both project and non-project context handling\n\n## Test Status:\n- File created: ✅\n- Git init: Pending...\n- Branch creation: Pending...\n"

/-- One iteration of the listing loop, src/test_git_fix.py lines 50-52:
print the entry when os.path.isfile holds. -/
def printEntry (w : World) (f : String) : World :=
  if (lookupFile w.fs f).isSome then w.pr ("  - " ++ f) else w

/-- Embedding of main, src/test_git_fix.py lines 11-52: prints, writes the
markdown file, prints, then lists the regular files of the working
directory. The script never consults its command line or environment. -/
def main (argv : List String) (env : List (String × String)) (w : World) : PyRes Unit :=
  let w := w.pr "🧪 Testing Git initialization after BashCommand fix..."
  let (iso1, w) := now w
  let w := w.pr ("⏰ Test started at: " ++ iso1)
  let (iso2, w) := now w
  let content := git_test_content iso2
  (writeWhole "test_git_functionality.md" (FileData.text content) w).bind fun _ w =>
  let w := w.pr "✅ Created test_git_functionality.md"
  let w := w.pr "🔍 Check browser console for Git initialization logs"
  let w := w.pr "⏰ Auto-commit should trigger in 3 minutes if Git init works"
  let w := w.emit Event.getcwd
  let w := w.pr ("📁 Current directory: " ++ w.cwd)
  let w := w.pr "📄 Files in current directory:"
  (listdirStep w).bind fun entries w =>
  PyRes.ok () (entries.foldl printEntry w)

end TestGitFix

namespace Hello

/-- Embedding of main, src/hello.py lines 6-9: three fixed prints. The
script never consults its command line or environment. -/
def main (argv : List String) (env : List (String × String)) (w : World) : PyRes Unit :=
  let w := w.pr "Hello, Kibitz!"
  let w := w.pr "Testing the optimized auto-commit system..."
  let w := w.pr "This should trigger auto-commit and potentially branch creation."
  PyRes.ok () w

end Hello

/-- Embedding of the launcher src/docker/scripts/ws-mcp-direct.py run as a
process: prepend the ws-mcp source directory to the module search path, pull
in the external ws_mcp package, invoke its main, and return the
resulting process exit status together with the final world. The external
package is not part of this repository, so its behaviour is the wsMcp
oracle: exit status is the SystemExit code when main raises SystemExit, 0
when main returns (its return value is discarded by the bare call), and 1
when main raises any other exception. -/
def ws_mcp_direct (argv : List String) (env : List (String × String)) (w : World) :
    Nat × World :=
  let w := { w with sysPath := "/app/ws-mcp/src" :: w.sysPath }
  let w := w.emit (Event.pathInsert 0 "/app/ws-mcp/src")
  let w := w.emit (Event.importMod "ws_mcp")
  let w := w.emit (Event.call "ws_mcp.main")
  match w.wsMcp with
  | ExtBehavior.returns _ => (0, w)
  | ExtBehavior.exits c => (c, w)
  | ExtBehavior.raises _ => (1, w)

/-- Final world of a run, whether or not it raised. -/
def PyRes.world {α : Type} : PyRes α → World
  | .ok _ w => w
  | .exn _ w => w

/-- No fallible operation of this world's fault stream raises. -/
def noFault (w : World) : Prop := ∀ n, w.ioFault n = false

/-- Event classification for the body of create_test_files after its
entry marker: reads touch only package.json, directories created are only
src and data, and there is no sleeping and no further call. -/
def innerEventOk : Event → Bool
  | Event.readFile p => p == "package.json"
  | Event.mkdir d => d == "src" || d == "data"
  | Event.sleep _ => false
  | Event.call _ => false
  | _ => true

/-- Event classification for a whole script run: reads touch only
package.json and directories created are only src and data. -/
def mainEventOk : Event → Bool
  | Event.readFile p => p == "package.json"
  | Event.mkdir d => d == "src" || d == "data"
  | _ => true

/-- Control events of a trace: sleeps and function-call markers. -/
def isCtrl : Event → Bool
  | Event.sleep _ => true
  | Event.call _ => true
  | _ => false

/-- Projection of a trace to its sleeps and call markers. -/
def ctrl (tr : List Event) : List Event := tr.filter isCtrl

/-- Is this event a read of path p? -/
def isReadOf (p : String) : Event → Bool
  | Event.readFile q => q == p
  | _ => false

/-- Is this event a write of path p? -/
def isWriteOf (p : String) : Event → Bool
  | Event.writeFile q _ => q == p
  | _ => false

/-- Does the trace write path p and open it for reading strictly later? -/
def writeThenRead (p : String) : List Event → Bool
  | [] => false
  | e :: rest => (isWriteOf p e && rest.any (isReadOf p)) || writeThenRead p rest

/-- Is this event a sixty-second sleep? -/
def isSleep60 : Event → Bool
  | Event.sleep n => n == 60
  | _ => false

/-- Is this event the call marker of create_test_files? -/
def isCreateCall : Event → Bool
  | Event.call f => f == "create_test_files"
  | _ => false

/-- Does every sixty-second sleep of the trace have a later call of
create_test_files? -/
def callsAfterSleeps : List Event → Bool
  | [] => true
  | e :: rest => (!(isSleep60 e) || rest.any isCreateCall) && callsAfterSleeps rest

/-- The value stored at 'scripts', defaulted to an empty object, as the
update step sees it. -/
def scriptsOrEmpty (kvs : List (String × Json)) : List (String × Json) :=
  match jLookup kvs "scripts" with
  | some (Json.obj s) => s
  | _ => []

/-- Does the 'scripts' entry, when present, hold an object, so that the
update step can subscript into it? -/
def scriptsShapeOk (kvs : List (String × Json)) : Bool :=
  match jLookup kvs "scripts" with
  | none => true
  | some (Json.obj _) => true
  | some _ => false

/-- A starting world with the given filesystem, empty trace, a drifting
clock, an identity random stream and no faults. -/
def baseW (fs0 : List (String × FileData)) : World :=
  { fs := fs0, dirs := [], cwd := "/repo", events := [],
    clock := fun n => 100 + n, clockIdx := 0,
    rand := fun n => n, randIdx := 0,
    ioFault := fun _ => false, ioIdx := 0,
    sysPath := [], wsMcp := ExtBehavior.returns none }

/-- A run with a package.json manifest holding one plain key. -/
def wPkg : World :=
  baseW [("package.json", FileData.jsonData (Json.obj [("name", Json.str "kibitz")]))]

/-- A run with no package.json at all. -/
def wNoPkg : World := baseW []

/-- A run whose package.json is not valid JSON, so the update step's parse
raises. -/
def wBadPkg : World := baseW [("package.json", FileData.text "not json")]

/-- A run whose package.json scripts object already holds the very key the
update step is about to add: the clock is frozen at 100, so the new key is
test-auto-commit-100 as well. -/
def wCollide : World :=
  { baseW [("package.json", FileData.jsonData (Json.obj
      [("scripts", Json.obj [("test-auto-commit-100", Json.str "old")])]))] with
    clock := fun _ => 100 }

/-- A launcher run whose external main returns the integer 3 instead of
raising SystemExit. -/
def wReturns3 : World := { baseW [] with wsMcp := ExtBehavior.returns (some 3) }

/-- A launcher run whose external main raises SystemExit(7). -/
def wExits7 : World := { baseW [] with wsMcp := ExtBehavior.exits 7 }

theorem lookupFile_setFile_self (fs : List (String × FileData)) (p : String) (d : FileData) :
    lookupFile (setFile fs p d) p = some d := by
  induction fs with
  | nil => simp [setFile, lookupFile]
  | cons hd tl ih =>
    obtain ⟨q, e⟩ := hd
    by_cases hq : q = p <;> simp [setFile, lookupFile, hq, ih]

theorem lookupFile_setFile_ne (fs : List (String × FileData)) (p q : String) (d : FileData)
    (h : q ≠ p) : lookupFile (setFile fs p d) q = lookupFile fs q := by
  induction fs with
  | nil => simp [setFile, lookupFile, Ne.symm h]
  | cons hd tl ih =>
    obtain ⟨r, e⟩ := hd
    by_cases hr : r = p
    · subst hr
      simp [setFile, lookupFile, Ne.symm h]
    · simp [setFile, lookupFile, hr, ih]

theorem jLookup_setKey_self (kvs : List (String × Json)) (k : String) (v : Json) :
    jLookup (setKey kvs k v) k = some v := by
  induction kvs with
  | nil => simp [setKey, jLookup]
  | cons hd tl ih =>
    obtain ⟨q, e⟩ := hd
    by_cases hq : q = k <;> simp [setKey, jLookup, hq, ih]

theorem jLookup_setKey_ne (kvs : List (String × Json)) (k k' : String) (v : Json)
    (h : k' ≠ k) : jLookup (setKey kvs k v) k' = jLookup kvs k' := by
  induction kvs with
  | nil => simp [setKey, jLookup, Ne.symm h]
  | cons hd tl ih =>
    obtain ⟨r, e⟩ := hd
    by_cases hr : r = k
    · subst hr
      simp [setKey, jLookup, Ne.symm h]
    · simp [setKey, jLookup, hr, ih]

theorem jLookup_append_one_ne (kvs : List (String × Json)) (k k' : String) (v : Json)
    (h : k' ≠ k) : jLookup (kvs ++ [(k, v)]) k' = jLookup kvs k' := by
  induction kvs with
  | nil => simp [jLookup, Ne.symm h]
  | cons hd tl ih =>
    obtain ⟨r, e⟩ := hd
    by_cases hr : r = k' <;> simp [jLookup, hr, ih]

theorem mem_addDir (d x : String) (l : List String) (h : x ∈ addDir d l) :
    x ∈ l ∨ x = d := by
  unfold addDir at h
  by_cases hd : d ∈ l
  · simp [hd] at h
    exact Or.inl h
  · simp [hd] at h
    rcases h with h | h
    · exact Or.inl h
    · exact Or.inr h

theorem ts_path_ne_pkg (x : String) : "src/test_file_" ++ x ++ ".ts" ≠ "package.json" := by
  intro h
  have hlen := congrArg String.length h
  rw [String.length_append, String.length_append] at hlen
  have h1 : ("src/test_file_" : String).length = 14 := rfl
  have h2 : (".ts" : String).length = 3 := rfl
  have h3 : ("package.json" : String).length = 12 := rfl
  omega

theorem ts_path_ne_config (x : String) :
    "src/test_file_" ++ x ++ ".ts" ≠ "data/config.json" := by
  intro h
  have hlen := congrArg String.length h
  rw [String.length_append, String.length_append] at hlen
  have h1 : ("src/test_file_" : String).length = 14 := rfl
  have h2 : (".ts" : String).length = 3 := rfl
  have h3 : ("data/config.json" : String).length = 16 := rfl
  omega

theorem lookup_pkg_after_ts (fs : List (String × FileData)) (x : String) (d : FileData) :
    lookupFile (setFile fs ("src/test_file_" ++ x ++ ".ts") d) "package.json" =
      lookupFile fs "package.json" :=
  lookupFile_setFile_ne fs _ _ d (Ne.symm (ts_path_ne_pkg x))

theorem lookup_pkg_after_config (fs : List (String × FileData)) (d : FileData) :
    lookupFile (setFile fs "data/config.json" d) "package.json" =
      lookupFile fs "package.json" :=
  lookupFile_setFile_ne fs _ _ d (by decide)

theorem lookup_config_after_pkg (fs : List (String × FileData)) (d : FileData) :
    lookupFile (setFile fs "package.json" d) "data/config.json" =
      lookupFile fs "data/config.json" :=
  lookupFile_setFile_ne fs _ _ d (by decide)

theorem lookup_config_after_ts (fs : List (String × FileData)) (x : String) (d : FileData) :
    lookupFile (setFile fs ("src/test_file_" ++ x ++ ".ts") d) "data/config.json" =
      lookupFile fs "data/config.json" :=
  lookupFile_setFile_ne fs _ _ d (Ne.symm (ts_path_ne_config x))

theorem mem_addDir1 (x : String) (l : List String) (hx : x ∈ addDir "src" l) :
    x ∈ l ∨ x = "src" ∨ x = "data" := by
  rcases mem_addDir _ _ _ hx with h | h
  · exact Or.inl h
  · exact Or.inr (Or.inl h)

theorem mem_addDir2 (x : String) (l : List String)
    (hx : x ∈ addDir "data" (addDir "src" l)) : x ∈ l ∨ x = "src" ∨ x = "data" := by
  rcases mem_addDir _ _ _ hx with h | h
  · exact mem_addDir1 x l h
  · exact Or.inr (Or.inr h)

theorem jLookup_append_one_self (kvs : List (String × Json)) (k : String) (v : Json)
    (h : jLookup kvs k = none) : jLookup (kvs ++ [(k, v)]) k = some v := by
  induction kvs with
  | nil => simp [jLookup]
  | cons hd tl ih =>
    obtain ⟨q, e⟩ := hd
    by_cases hq : q = k
    · simp [jLookup, hq] at h
    · rw [List.cons_append]
      rw [jLookup] at h ⊢
      simp only [hq, if_false, ite_false] at h ⊢
      exact ih h

theorem update_run (w w' : World)
    (h : (TestAutoCommit.update_package_json w).world = w') :
    w'.events.all mainEventOk = w.events.all mainEventOk ∧
    ctrl w'.events = ctrl w.events ∧
    w'.cwd = w.cwd ∧ w'.sysPath = w.sysPath ∧ w'.wsMcp = w.wsMcp ∧
    w'.ioFault = w.ioFault ∧ w'.clock = w.clock ∧ w'.rand = w.rand ∧
    w'.dirs = w.dirs ∧
    lookupFile w'.fs "data/config.json" = lookupFile w.fs "data/config.json" := by
  unfold TestAutoCommit.update_package_json at h
  simp only [readWhole, jsonLoad, asObj, asScriptsObj, writeWhole, now, World.readClock,
    World.draw, World.ioStep, World.emit, World.pr] at h
  cases hb0 : w.ioFault w.ioIdx
  all_goals simp [hb0] at h
  all_goals try
    (try simp only [PyRes.bind, PyRes.world] at h
     subst h
     refine ⟨?_, ?_, ?_, ?_, ?_, ?_, ?_, ?_, ?_, ?_⟩ <;>
       simp [List.all_append, mainEventOk, ctrl, isCtrl, List.filter_append,
         lookup_config_after_pkg]
     done)
  rcases hl : lookupFile w.fs "package.json" with _ | d <;> rw [hl] at h
  all_goals try
    (try simp only [PyRes.bind, PyRes.world] at h
     subst h
     refine ⟨?_, ?_, ?_, ?_, ?_, ?_, ?_, ?_, ?_, ?_⟩ <;>
       simp [List.all_append, mainEventOk, ctrl, isCtrl, List.filter_append,
         lookup_config_after_pkg]
     done)
  simp only [PyRes.bind] at h
  rcases d with s | j
  all_goals try
    (try simp only [PyRes.bind, PyRes.world] at h
     subst h
     refine ⟨?_, ?_, ?_, ?_, ?_, ?_, ?_, ?_, ?_, ?_⟩ <;>
       simp [List.all_append, mainEventOk, ctrl, isCtrl, List.filter_append,
         lookup_config_after_pkg]
     done)
  rcases j with _ | b | n | q | s | elems | kvs
  all_goals try
    (try simp only [PyRes.bind, PyRes.world] at h
     subst h
     refine ⟨?_, ?_, ?_, ?_, ?_, ?_, ?_, ?_, ?_, ?_⟩ <;>
       simp [List.all_append, mainEventOk, ctrl, isCtrl, List.filter_append,
         lookup_config_after_pkg]
     done)
  simp only [PyRes.bind] at h
  rcases hjs : jLookup kvs "scripts" with _ | sv
  · simp only [hjs, Option.isSome_none, Bool.false_eq_true, if_false, ite_false,
      jLookup_append_one_self kvs "scripts" (Json.obj []) hjs, PyRes.bind] at h
    cases hb1 : w.ioFault (w.ioIdx + 1)
    all_goals simp [hb1] at h
    all_goals
      (try simp only [PyRes.bind, PyRes.world] at h
       subst h
       refine ⟨?_, ?_, ?_, ?_, ?_, ?_, ?_, ?_, ?_, ?_⟩ <;>
         simp [List.all_append, mainEventOk, ctrl, isCtrl, List.filter_append,
           lookup_config_after_pkg])
  · simp only [hjs, Option.isSome_some, if_true, ite_true, PyRes.bind] at h
    rcases sv with _ | b2 | n2 | q2 | s2 | elems2 | scr
    all_goals try
      (try simp only [PyRes.bind, PyRes.world] at h
       subst h
       refine ⟨?_, ?_, ?_, ?_, ?_, ?_, ?_, ?_, ?_, ?_⟩ <;>
         simp [List.all_append, mainEventOk, ctrl, isCtrl, List.filter_append,
           lookup_config_after_pkg]
       done)
    simp only [PyRes.bind] at h
    cases hb1 : w.ioFault (w.ioIdx + 1)
    all_goals simp [hb1] at h
    all_goals
      (try simp only [PyRes.bind, PyRes.world] at h
       subst h
       refine ⟨?_, ?_, ?_, ?_, ?_, ?_, ?_, ?_, ?_, ?_⟩ <;>
         simp [List.all_append, mainEventOk, ctrl, isCtrl, List.filter_append,
           lookup_config_after_pkg])

set_option maxHeartbeats 4000000 in
theorem create_run (w w' : World)
    (h : (TestAutoCommit.create_test_files w).world = w') :
    w'.events.all mainEventOk = w.events.all mainEventOk ∧
    ctrl w'.events = ctrl w.events ++ [Event.call "create_test_files"] ∧
    w'.cwd = w.cwd ∧ w'.sysPath = w.sysPath ∧ w'.wsMcp = w.wsMcp ∧
    w'.ioFault = w.ioFault ∧ w'.clock = w.clock ∧ w'.rand = w.rand ∧
    (∀ x, x ∈ w'.dirs → x ∈ w.dirs ∨ x = "src" ∨ x = "data") := by
  unfold TestAutoCommit.create_test_files at h
  dsimp only [makedirs, writeWhole, now, randint, randomFloat, World.readClock, World.draw,
    World.ioStep, World.emit, World.pr, PyRes.bind] at h
  cases hb0 : w.ioFault w.ioIdx
  all_goals simp [hb0, PyRes.bind] at h
  all_goals try
    (try simp only [PyRes.bind, PyRes.world] at h
     subst h
     refine ⟨?_, ?_, ?_, ?_, ?_, ?_, ?_, ?_, ?_⟩ <;>
       first
         | (intro x hx
            first
              | exact Or.inl hx
              | exact mem_addDir1 x _ hx
              | exact mem_addDir2 x _ hx)
         | simp [List.all_append, mainEventOk, ctrl, isCtrl, List.filter_append]
     done)
  cases hb1 : w.ioFault (w.ioIdx + 1)
  all_goals simp [hb1, PyRes.bind] at h
  all_goals try
    (try simp only [PyRes.bind, PyRes.world] at h
     subst h
     refine ⟨?_, ?_, ?_, ?_, ?_, ?_, ?_, ?_, ?_⟩ <;>
       first
         | (intro x hx
            first
              | exact Or.inl hx
              | exact mem_addDir1 x _ hx
              | exact mem_addDir2 x _ hx)
         | simp [List.all_append, mainEventOk, ctrl, isCtrl, List.filter_append]
     done)
  cases hb2 : w.ioFault (w.ioIdx + 2)
  all_goals simp [hb2, PyRes.bind] at h
  all_goals try
    (try simp only [PyRes.bind, PyRes.world] at h
     subst h
     refine ⟨?_, ?_, ?_, ?_, ?_, ?_, ?_, ?_, ?_⟩ <;>
       first
         | (intro x hx
            first
              | exact Or.inl hx
              | exact mem_addDir1 x _ hx
              | exact mem_addDir2 x _ hx)
         | simp [List.all_append, mainEventOk, ctrl, isCtrl, List.filter_append]
     done)
  cases hb3 : w.ioFault (w.ioIdx + 3)
  all_goals simp [hb3, PyRes.bind] at h
  all_goals try
    (try simp only [PyRes.bind, PyRes.world] at h
     subst h
     refine ⟨?_, ?_, ?_, ?_, ?_, ?_, ?_, ?_, ?_⟩ <;>
       first
         | (intro x hx
            first
              | exact Or.inl hx
              | exact mem_addDir1 x _ hx
              | exact mem_addDir2 x _ hx)
         | simp [List.all_append, mainEventOk, ctrl, isCtrl, List.filter_append]
     done)
  split at h
  case isTrue =>
    split at h
    all_goals rename_i uv uw hu
    all_goals simp only [PyRes.world, World.pr, World.emit] at h
    all_goals subst h
    all_goals
      have hU := update_run _ _ (congrArg PyRes.world hu)
    all_goals simp only [PyRes.world] at hU
    all_goals obtain ⟨hA, hB, hC, hD, hE, hF2, hG, hH, hI, hJ⟩ := hU
    all_goals simp only [ctrl] at hB
    all_goals
      refine ⟨?_, ?_, ?_, ?_, ?_, ?_, ?_, ?_, ?_⟩ <;>
        first
          | (intro x hx
             try simp only [World.pr, World.emit] at hx
             rw [hI] at hx
             first
               | exact Or.inl hx
               | exact mem_addDir1 x _ hx
               | exact mem_addDir2 x _ hx)
          | simp [hA, hB, hC, hD, hE, hF2, hG, hH, List.all_append, mainEventOk, ctrl,
              isCtrl, List.filter_append, World.pr, World.emit]
  case isFalse =>
    simp only [PyRes.world] at h
    subst h
    refine ⟨?_, ?_, ?_, ?_, ?_, ?_, ?_, ?_, ?_⟩ <;>
      first
        | (intro x hx
           first
             | exact Or.inl hx
             | exact mem_addDir1 x _ hx
             | exact mem_addDir2 x _ hx)
        | simp [List.all_append, mainEventOk, ctrl, isCtrl, List.filter_append]

theorem tid_ub (d : Nat) : 1000 + d % 9000 ≤ 9999 := by
  have hm := Nat.mod_lt d (show 0 < 9000 by norm_num)
  omega

theorem randomFloat_lb (d : Nat) : (0 : ℚ) ≤ ((d % 2 ^ 53 : Nat) : ℚ) / 2 ^ 53 := by
  positivity

theorem randomFloat_ub (d : Nat) : ((d % 2 ^ 53 : Nat) : ℚ) / 2 ^ 53 < 1 := by
  rw [div_lt_one (by positivity)]
  have hm : d % 2 ^ 53 < 2 ^ 53 := Nat.mod_lt d (by positivity)
  exact_mod_cast hm

set_option maxHeartbeats 4000000 in
theorem create_content (w w' : World)
    (hb0 : w.ioFault w.ioIdx = false) (hb1 : w.ioFault (w.ioIdx + 1) = false)
    (hb2 : w.ioFault (w.ioIdx + 2) = false) (hb3 : w.ioFault (w.ioIdx + 3) = false)
    (h : (TestAutoCommit.create_test_files w).world = w') :
    ∃ tid iso rv, lookupFile w'.fs "data/config.json" =
        some (FileData.jsonData (TestAutoCommit.configJson tid iso rv)) ∧
      1000 ≤ tid ∧ tid ≤ 9999 ∧ (0 : ℚ) ≤ rv ∧ rv < 1 := by
  unfold TestAutoCommit.create_test_files at h
  dsimp only [makedirs, writeWhole, now, randint, randomFloat, World.readClock, World.draw,
    World.ioStep, World.emit, World.pr, PyRes.bind] at h
  simp [hb0, PyRes.bind] at h
  simp [hb1, PyRes.bind] at h
  simp [hb2, PyRes.bind] at h
  simp [hb3, PyRes.bind] at h
  split at h
  case isTrue =>
    split at h
    all_goals rename_i uv uw hu
    all_goals
      have hJ := (update_run _ _ (congrArg PyRes.world hu)).2.2.2.2.2.2.2.2.2
    all_goals simp only [PyRes.world] at hJ
    all_goals simp only [PyRes.world, World.pr, World.emit] at h
    all_goals subst h
    all_goals
      refine ⟨_, _, _, hJ.trans (lookupFile_setFile_self _ _ _), ?_, ?_, ?_, ?_⟩
    all_goals first
      | exact Nat.le_add_right 1000 _
      | exact tid_ub _
      | exact randomFloat_lb _
      | exact randomFloat_ub _
  case isFalse =>
    simp only [PyRes.world] at h
    subst h
    exact ⟨_, _, _, lookupFile_setFile_self _ _ _, Nat.le_add_right 1000 _, tid_ub _,
      randomFloat_lb _, randomFloat_ub _⟩

theorem update_ok_print (w w' : World) (u : Unit)
    (h : TestAutoCommit.update_package_json w = PyRes.ok u w') :
    Event.print "✅ Updated package.json with test script" ∈ w'.events := by
  unfold TestAutoCommit.update_package_json at h
  simp only [readWhole, jsonLoad, asObj, asScriptsObj, writeWhole, now, World.readClock,
    World.draw, World.ioStep, World.emit, World.pr] at h
  cases hb0 : w.ioFault w.ioIdx
  all_goals simp [hb0, PyRes.bind] at h
  all_goals try
    ((try simp only [PyRes.bind] at h)
     cases h
     all_goals simp [World.pr, World.emit]
     done)
  rcases hl : lookupFile w.fs "package.json" with _ | d
  all_goals rw [hl] at h
  all_goals try simp only [PyRes.bind] at h
  all_goals try
    ((try simp only [PyRes.bind] at h)
     cases h
     all_goals simp [World.pr, World.emit]
     done)
  rcases d with s | j
  all_goals try
    ((try simp only [PyRes.bind] at h)
     cases h
     all_goals simp [World.pr, World.emit]
     done)
  rcases j with _ | b | n | q | s | elems | kvs
  all_goals try
    ((try simp only [PyRes.bind] at h)
     cases h
     all_goals simp [World.pr, World.emit]
     done)
  simp only [PyRes.bind] at h
  rcases hjs : jLookup kvs "scripts" with _ | sv
  · simp only [hjs, Option.isSome_none, Bool.false_eq_true, if_false, ite_false,
      jLookup_append_one_self kvs "scripts" (Json.obj []) hjs, PyRes.bind] at h
    cases hb1 : w.ioFault (w.ioIdx + 1)
    all_goals simp [hb1, PyRes.bind] at h
    all_goals
      ((try simp only [PyRes.bind] at h)
       cases h
       all_goals simp [World.pr, World.emit]
       done)
  · simp only [hjs, Option.isSome_some, if_true, ite_true, PyRes.bind] at h
    rcases sv with _ | b2 | n2 | q2 | s2 | elems2 | scr
    all_goals try
      ((try simp only [PyRes.bind] at h)
       cases h
       all_goals simp [World.pr, World.emit]
       done)
    simp only [PyRes.bind] at h
    cases hb1 : w.ioFault (w.ioIdx + 1)
    all_goals simp [hb1, PyRes.bind] at h
    all_goals
      ((try simp only [PyRes.bind] at h)
       cases h
       all_goals simp [World.pr, World.emit]
       done)

set_option maxHeartbeats 4000000 in
theorem create_pkg_prints (w w' : World)
    (hb0 : w.ioFault w.ioIdx = false) (hb1 : w.ioFault (w.ioIdx + 1) = false)
    (hb2 : w.ioFault (w.ioIdx + 2) = false) (hb3 : w.ioFault (w.ioIdx + 3) = false)
    (hpkg : (lookupFile w.fs "package.json").isSome = true)
    (h : (TestAutoCommit.create_test_files w).world = w') :
    Event.print "✅ Updated package.json with test script" ∈ w'.events ∨
      ∃ s, Event.print ("⚠️ Could not update package.json: " ++ s) ∈ w'.events := by
  unfold TestAutoCommit.create_test_files at h
  dsimp only [makedirs, writeWhole, now, randint, randomFloat, World.readClock, World.draw,
    World.ioStep, World.emit, World.pr, PyRes.bind] at h
  simp [hb0, PyRes.bind] at h
  simp [hb1, PyRes.bind] at h
  simp [hb2, PyRes.bind] at h
  simp [hb3, PyRes.bind] at h
  split at h
  case isTrue =>
    split at h
    case h_1 uv uw hu =>
      simp only [PyRes.world] at h
      subst h
      exact Or.inl (update_ok_print _ _ _ hu)
    case h_2 uv uw hu =>
      simp only [PyRes.world, World.pr, World.emit] at h
      subst h
      exact Or.inr ⟨uv.msg, by simp⟩
  case isFalse =>
    rename_i hcond
    rw [lookup_pkg_after_config, lookup_pkg_after_ts] at hcond
    exact absurd hpkg hcond

theorem foldl_listing_run (l : List String) (w : World) :
    ((l.foldl TestGitFix.printEntry w)).events.all mainEventOk = w.events.all mainEventOk ∧
    ctrl ((l.foldl TestGitFix.printEntry w)).events = ctrl w.events ∧
    (l.foldl TestGitFix.printEntry w).cwd = w.cwd ∧
    (l.foldl TestGitFix.printEntry w).sysPath = w.sysPath ∧
    (l.foldl TestGitFix.printEntry w).wsMcp = w.wsMcp ∧
    (l.foldl TestGitFix.printEntry w).ioFault = w.ioFault ∧
    (l.foldl TestGitFix.printEntry w).clock = w.clock ∧
    (l.foldl TestGitFix.printEntry w).rand = w.rand ∧
    (l.foldl TestGitFix.printEntry w).dirs = w.dirs := by
  induction l generalizing w with
  | nil => simp
  | cons x xs ih =>
    simp only [List.foldl_cons, TestGitFix.printEntry]
    by_cases hx : (lookupFile w.fs x).isSome
    · simp only [hx, if_true, ite_true]
      obtain ⟨i1, i2, i3, i4, i5, i6, i7, i8, i9⟩ := ih (w.pr ("  - " ++ x))
      refine ⟨?_, ?_, ?_, ?_, ?_, ?_, ?_, ?_, ?_⟩ <;>
        simp_all [World.pr, World.emit, ctrl, isCtrl, List.filter_append, List.all_append,
          mainEventOk]
    · simp only [hx, Bool.false_eq_true, if_false, ite_false]
      exact ih w

set_option maxHeartbeats 2000000 in
theorem gitfix_run (a : List String) (e0 : List (String × String)) (w w' : World)
    (h : (TestGitFix.main a e0 w).world = w') :
    w'.events.all mainEventOk = w.events.all mainEventOk ∧
    ctrl w'.events = ctrl w.events ∧
    w'.cwd = w.cwd ∧ w'.sysPath = w.sysPath ∧ w'.wsMcp = w.wsMcp ∧
    w'.ioFault = w.ioFault ∧ w'.clock = w.clock ∧ w'.rand = w.rand ∧ w'.dirs = w.dirs := by
  unfold TestGitFix.main at h
  dsimp only [writeWhole, listdirStep, now, World.readClock, World.ioStep, World.emit,
    World.pr, PyRes.bind] at h
  cases hb0 : w.ioFault w.ioIdx
  all_goals simp [hb0, PyRes.bind] at h
  all_goals try
    (simp only [PyRes.world] at h
     subst h
     refine ⟨?_, ?_, ?_, ?_, ?_, ?_, ?_, ?_, ?_⟩ <;>
       simp [List.all_append, mainEventOk, ctrl, isCtrl, List.filter_append]
     done)
  cases hb1 : w.ioFault (w.ioIdx + 1)
  all_goals simp [hb1, PyRes.bind] at h
  all_goals try
    (simp only [PyRes.world] at h
     subst h
     refine ⟨?_, ?_, ?_, ?_, ?_, ?_, ?_, ?_, ?_⟩ <;>
       simp [List.all_append, mainEventOk, ctrl, isCtrl, List.filter_append]
     done)
  simp only [PyRes.world] at h
  subst h
  refine ⟨?_, ?_, ?_, ?_, ?_, ?_, ?_, ?_, ?_⟩
  · rw [(foldl_listing_run _ _).1]
    simp [List.all_append, mainEventOk]
  · rw [(foldl_listing_run _ _).2.1]
    simp [ctrl, isCtrl, List.filter_append]
  · rw [(foldl_listing_run _ _).2.2.1]
  · rw [(foldl_listing_run _ _).2.2.2.1]
  · rw [(foldl_listing_run _ _).2.2.2.2.1]
  · rw [(foldl_listing_run _ _).2.2.2.2.2.1]
  · rw [(foldl_listing_run _ _).2.2.2.2.2.2.1]
  · rw [(foldl_listing_run _ _).2.2.2.2.2.2.2.1]
  · rw [(foldl_listing_run _ _).2.2.2.2.2.2.2.2]

set_option maxHeartbeats 2000000 in
theorem gitfix_exn_iff (a : List String) (e0 : List (String × String)) (w : World) :
    (TestGitFix.main a e0 w).exitCode ≠ 0 ↔
      (w.ioFault w.ioIdx = true ∨ w.ioFault (w.ioIdx + 1) = true) := by
  cases hb0 : w.ioFault w.ioIdx
  case true =>
    simp [TestGitFix.main, writeWhole, now, World.readClock, World.ioStep, World.emit,
      World.pr, PyRes.bind, PyRes.exitCode, hb0]
  case false =>
    cases hb1 : w.ioFault (w.ioIdx + 1)
    all_goals
      simp [TestGitFix.main, writeWhole, listdirStep, now, World.readClock, World.ioStep,
        World.emit, World.pr, PyRes.bind, PyRes.exitCode, hb0, hb1]

theorem create_exn_iff (w : World) :
    (TestAutoCommit.create_test_files w).exitCode ≠ 0 ↔
      (w.ioFault w.ioIdx = true ∨ w.ioFault (w.ioIdx + 1) = true ∨
       w.ioFault (w.ioIdx + 2) = true ∨ w.ioFault (w.ioIdx + 3) = true) := by
  cases hb0 : w.ioFault w.ioIdx
  case true =>
    simp [TestAutoCommit.create_test_files, makedirs, World.ioStep, World.emit, PyRes.bind,
      PyRes.exitCode, hb0]
  case false =>
    cases hb1 : w.ioFault (w.ioIdx + 1)
    case true =>
      simp [TestAutoCommit.create_test_files, makedirs, writeWhole, now, randint, randomFloat,
        World.readClock, World.draw, World.ioStep, World.emit, World.pr, PyRes.bind,
        PyRes.exitCode, hb0, hb1]
    case false =>
      cases hb2 : w.ioFault (w.ioIdx + 2)
      case true =>
        simp [TestAutoCommit.create_test_files, makedirs, writeWhole, now, randint, randomFloat,
          World.readClock, World.draw, World.ioStep, World.emit, World.pr, PyRes.bind,
          PyRes.exitCode, hb0, hb1, hb2]
      case false =>
        cases hb3 : w.ioFault (w.ioIdx + 3)
        case true =>
          simp [TestAutoCommit.create_test_files, makedirs, writeWhole, now, randint, randomFloat,
            World.readClock, World.draw, World.ioStep, World.emit, World.pr, PyRes.bind,
            PyRes.exitCode, hb0, hb1, hb2, hb3]
        case false =>
          simp only [TestAutoCommit.create_test_files, makedirs, writeWhole, now, randint,
            randomFloat, World.readClock, World.draw, World.ioStep, World.emit, World.pr,
            PyRes.bind, hb0, hb1, hb2, hb3, Bool.false_eq_true, if_false, ite_false]
          split <;> first
            | (split <;> simp [PyRes.exitCode, hb0, hb1, hb2, hb3])
            | simp [PyRes.exitCode, hb0, hb1, hb2, hb3]

theorem bind_world_split {α β : Type} (r : PyRes α) (f : α → World → PyRes β) (w' : World)
    (h : (r.bind f).world = w') :
    (∃ v wv, r = PyRes.ok v wv ∧ (f v wv).world = w') ∨ (∃ e, r = PyRes.exn e w') := by
  cases r with
  | ok v wv => exact Or.inl ⟨v, wv, rfl, h⟩
  | exn e wv =>
    refine Or.inr ⟨e, ?_⟩
    have hw : wv = w' := h
    rw [hw]

theorem bind_ok_elim {α β : Type} (r : PyRes α) (f : α → World → PyRes β)
    (C : PyRes β → Prop)
    (hok : ∀ v wv, r = PyRes.ok v wv → C (f v wv))
    (hexn : ∀ e wv, r = PyRes.exn e wv → C (PyRes.exn e wv)) :
    C (r.bind f) := by
  cases r with
  | ok v wv => exact hok v wv rfl
  | exn e wv => exact hexn e wv rfl

theorem world_eq_of_ok {α : Type} (r : PyRes α) (v : α) (wv : World)
    (h : r = PyRes.ok v wv) : r.world = wv := by
  rw [h]
  rfl

theorem world_eq_of_exn {α : Type} (r : PyRes α) (e : PyExc) (wv : World)
    (h : r = PyRes.exn e wv) : r.world = wv := by
  rw [h]
  rfl

theorem create_ok_of_noFault (w : World) (hF : noFault w) :
    ∃ w', TestAutoCommit.create_test_files w = PyRes.ok () w' := by
  rcases hr : TestAutoCommit.create_test_files w with ⟨u, w1⟩ | ⟨e, w1⟩
  · cases u
    exact ⟨w1, rfl⟩
  · exfalso
    have hne : (TestAutoCommit.create_test_files w).exitCode ≠ 0 := by
      rw [hr]
      simp [PyRes.exitCode]
    rcases (create_exn_iff w).mp hne with hb | hb | hb | hb <;> rw [hF] at hb <;>
      exact Bool.false_ne_true hb


theorem mainLoop_run (L : List Nat) (w w' : World)
    (h : (TestAutoCommit.mainLoop L w).world = w') :
    w'.events.all mainEventOk = w.events.all mainEventOk ∧
    w'.cwd = w.cwd ∧ w'.sysPath = w.sysPath ∧ w'.wsMcp = w.wsMcp ∧
    w'.ioFault = w.ioFault ∧
    (∀ x, x ∈ w'.dirs → x ∈ w.dirs ∨ x = "src" ∨ x = "data") := by
  induction L generalizing w w' with
  | nil =>
    simp only [TestAutoCommit.mainLoop, PyRes.world] at h
    subst h
    exact ⟨rfl, rfl, rfl, rfl, rfl, fun x hx => Or.inl hx⟩
  | cons i rest ih =>
    simp only [TestAutoCommit.mainLoop] at h
    by_cases hi : i < 2
    · rw [if_pos hi] at h
      rcases bind_world_split _ _ _ h with ⟨v, wv, hc, h2⟩ | ⟨e, hc⟩
      · replace h2 : (TestAutoCommit.mainLoop rest wv).world = w' := h2
        obtain ⟨c1, _, c3, c4, c5, c6, _, _, c9⟩ :=
          create_run _ _ (world_eq_of_ok _ _ _ hc)
        obtain ⟨d1, d2, d3, d4, d5, d6⟩ := ih wv w' h2
        refine ⟨?_, ?_, ?_, ?_, ?_, ?_⟩
        · rw [d1, c1]
          simp [World.pr, World.emit, List.all_append, mainEventOk]
        · rw [d2, c3]
          rfl
        · rw [d3, c4]
          rfl
        · rw [d4, c5]
          rfl
        · rw [d5, c6]
          rfl
        · intro x hx
          rcases d6 x hx with hx1 | hx1 | hx1
          · rcases c9 x hx1 with hx2 | hx2 | hx2
            · exact Or.inl hx2
            · exact Or.inr (Or.inl hx2)
            · exact Or.inr (Or.inr hx2)
          · exact Or.inr (Or.inl hx1)
          · exact Or.inr (Or.inr hx1)
      · obtain ⟨c1, _, c3, c4, c5, c6, _, _, c9⟩ :=
          create_run _ _ (world_eq_of_exn _ _ _ hc)
        refine ⟨?_, ?_, ?_, ?_, ?_, ?_⟩
        · rw [c1]
          simp [World.pr, World.emit, List.all_append, mainEventOk]
        · rw [c3]
          rfl
        · rw [c4]
          rfl
        · rw [c5]
          rfl
        · rw [c6]
          rfl
        · intro x hx
          rcases c9 x hx with hx2 | hx2 | hx2
          · exact Or.inl hx2
          · exact Or.inr (Or.inl hx2)
          · exact Or.inr (Or.inr hx2)
    · rw [if_neg hi] at h
      obtain ⟨d1, d2, d3, d4, d5, d6⟩ := ih _ w' h
      refine ⟨?_, ?_, ?_, ?_, ?_, ?_⟩
      · rw [d1]
        simp [World.pr, World.emit, List.all_append, mainEventOk]
      · rw [d2]
        rfl
      · rw [d3]
        rfl
      · rw [d4]
        rfl
      · rw [d5]
        rfl
      · intro x hx
        exact d6 x hx

theorem main_run (a : List String) (e0 : List (String × String)) (w w' : World)
    (h : (TestAutoCommit.main a e0 w).world = w') :
    w'.events.all mainEventOk = w.events.all mainEventOk ∧
    w'.cwd = w.cwd ∧ w'.sysPath = w.sysPath ∧ w'.wsMcp = w.wsMcp ∧
    w'.ioFault = w.ioFault ∧
    (∀ x, x ∈ w'.dirs → x ∈ w.dirs ∨ x = "src" ∨ x = "data") := by
  unfold TestAutoCommit.main at h
  rcases bind_world_split _ _ _ h with ⟨v, wv, hc, h2⟩ | ⟨e, hc⟩
  · replace h2 : ((TestAutoCommit.mainLoop (List.range 3)
        (((wv.pr "\n🕐 Waiting for auto-commit agent to detect changes...").pr
            "The auto-commit agent should create a branch within 3 minutes").pr
          "Check the browser console for auto-commit agent logs")).bind fun x w =>
        PyRes.ok () (((((w.pr "\n✅ Test complete!").pr
          "If auto-commit is working, you should see:").pr
          "1. Console logs showing auto-commit agent cycles").pr
          "2. New Git branches created with auto-commit- prefix").pr
          "3. Commits with the changed files")).world = w' := h2
    obtain ⟨c1, _, c3, c4, c5, c6, _, _, c9⟩ :=
      create_run _ _ (world_eq_of_ok _ _ _ hc)
    rcases bind_world_split _ _ _ h2 with ⟨u, wu, hm, h3⟩ | ⟨e2, hm⟩
    · replace h3 : (PyRes.ok () (((((wu.pr "\n✅ Test complete!").pr
          "If auto-commit is working, you should see:").pr
          "1. Console logs showing auto-commit agent cycles").pr
          "2. New Git branches created with auto-commit- prefix").pr
          "3. Commits with the changed files")).world = w' := h3
      simp only [PyRes.world] at h3
      subst h3
      obtain ⟨d1, d2, d3, d4, d5, d6⟩ :=
        mainLoop_run _ _ _ (world_eq_of_ok _ _ _ hm)
      refine ⟨?_, ?_, ?_, ?_, ?_, ?_⟩
      · simp [World.pr, World.emit, List.all_append, mainEventOk, d1, c1]
      · simp [World.pr, World.emit, d2, c3]
      · simp [World.pr, World.emit, d3, c4]
      · simp [World.pr, World.emit, d4, c5]
      · simp [World.pr, World.emit, d5, c6]
      · intro x hx
        simp only [World.pr, World.emit] at hx
        rcases d6 x hx with hx1 | hx1 | hx1
        · rcases c9 x hx1 with hx2 | hx2 | hx2
          · exact Or.inl hx2
          · exact Or.inr (Or.inl hx2)
          · exact Or.inr (Or.inr hx2)
        · exact Or.inr (Or.inl hx1)
        · exact Or.inr (Or.inr hx1)
    · obtain ⟨d1, d2, d3, d4, d5, d6⟩ :=
        mainLoop_run _ _ _ (world_eq_of_exn _ _ _ hm)
      refine ⟨?_, ?_, ?_, ?_, ?_, ?_⟩
      · simp [World.pr, World.emit, List.all_append, mainEventOk, d1, c1]
      · simp [World.pr, World.emit, d2, c3]
      · simp [World.pr, World.emit, d3, c4]
      · simp [World.pr, World.emit, d4, c5]
      · simp [World.pr, World.emit, d5, c6]
      · intro x hx
        rcases d6 x hx with hx1 | hx1 | hx1
        · rcases c9 x hx1 with hx2 | hx2 | hx2
          · exact Or.inl hx2
          · exact Or.inr (Or.inl hx2)
          · exact Or.inr (Or.inr hx2)
        · exact Or.inr (Or.inl hx1)
        · exact Or.inr (Or.inr hx1)
  · obtain ⟨c1, _, c3, c4, c5, c6, _, _, c9⟩ :=
      create_run _ _ (world_eq_of_exn _ _ _ hc)
    refine ⟨?_, ?_, ?_, ?_, ?_, ?_⟩
    · rw [c1]
      simp [World.pr, World.emit, List.all_append, mainEventOk]
    · rw [c3]
      rfl
    · rw [c4]
      rfl
    · rw [c5]
      rfl
    · rw [c6]
      rfl
    · intro x hx
      rcases c9 x hx with hx2 | hx2 | hx2
      · exact Or.inl hx2
      · exact Or.inr (Or.inl hx2)
      · exact Or.inr (Or.inr hx2)

theorem noFault_of_eq (w w' : World) (h : w'.ioFault = w.ioFault) (hF : noFault w) :
    noFault w' := by
  intro n
  rw [h]
  exact hF n

theorem mainLoop_noFault (L : List Nat) (w : World) (hF : noFault w) :
    ∃ w', TestAutoCommit.mainLoop L w = PyRes.ok () w' ∧ w'.ioFault = w.ioFault ∧
      ctrl w'.events = ctrl w.events ++
        (L.map fun i => if i < 2 then [Event.sleep 60, Event.call "create_test_files"]
          else [Event.sleep 60]).join := by
  induction L generalizing w with
  | nil => exact ⟨w, rfl, rfl, by simp⟩
  | cons i rest ih =>
    by_cases hi : i < 2
    · obtain ⟨w1, hc⟩ := create_ok_of_noFault
        (((w.pr ("\n⏰ Waiting 60 seconds... (" ++ toString (i + 1) ++ "/3)")).emit
            (Event.sleep 60)).pr
          ("🔧 Creating additional changes (round " ++ toString (i + 2) ++ ")...")) hF
      obtain ⟨_, cB, _, _, _, cF, _, _, _⟩ := create_run _ _ (world_eq_of_ok _ _ _ hc)
      have hF1 : noFault w1 := noFault_of_eq _ _ cF hF
      obtain ⟨w', hl, lF, lctrl⟩ := ih w1 hF1
      refine ⟨w', ?_, ?_, ?_⟩
      · simp only [TestAutoCommit.mainLoop]
        rw [if_pos hi, hc]
        simp only [PyRes.bind]
        exact hl
      · rw [lF, cF]
        rfl
      · rw [lctrl, cB]
        simp [hi, ctrl, isCtrl, World.pr, World.emit, List.filter_append]
    · obtain ⟨w', hl, lF, lctrl⟩ := ih
        ((w.pr ("\n⏰ Waiting 60 seconds... (" ++ toString (i + 1) ++ "/3)")).emit
          (Event.sleep 60)) hF
      refine ⟨w', ?_, ?_, ?_⟩
      · simp only [TestAutoCommit.mainLoop]
        rw [if_neg hi]
        exact hl
      · rw [lF]
        rfl
      · rw [lctrl]
        simp [hi, ctrl, isCtrl, World.pr, World.emit, List.filter_append]

theorem main_noFault (a : List String) (e0 : List (String × String)) (w : World)
    (hF : noFault w) (h0 : w.events = []) :
    ∃ w', TestAutoCommit.main a e0 w = PyRes.ok () w' ∧
      ctrl w'.events = [Event.call "create_test_files", Event.sleep 60,
        Event.call "create_test_files", Event.sleep 60, Event.call "create_test_files",
        Event.sleep 60] := by
  obtain ⟨w1, hc⟩ := create_ok_of_noFault
    (((w.pr "🔧 Auto-commit test script starting...").emit Event.getcwd).pr
      ("📁 Working directory: " ++
        ((w.pr "🔧 Auto-commit test script starting...").emit Event.getcwd).cwd)) hF
  obtain ⟨_, cB, _, _, _, cF, _, _, _⟩ := create_run _ _ (world_eq_of_ok _ _ _ hc)
  have hF1 : noFault w1 := noFault_of_eq _ _ cF hF
  obtain ⟨w2, hm, mF, mctrl⟩ := mainLoop_noFault (List.range 3)
    (((w1.pr "\n🕐 Waiting for auto-commit agent to detect changes...").pr
        "The auto-commit agent should create a branch within 3 minutes").pr
      "Check the browser console for auto-commit agent logs") hF1
  refine ⟨((((w2.pr "\n✅ Test complete!").pr
      "If auto-commit is working, you should see:").pr
      "1. Console logs showing auto-commit agent cycles").pr
      "2. New Git branches created with auto-commit- prefix").pr
      "3. Commits with the changed files", ?_, ?_⟩
  · simp only [TestAutoCommit.main]
    rw [hc]
    simp only [PyRes.bind]
    rw [hm]
    try simp only [PyRes.bind]
  · simp only [ctrl] at mctrl cB ⊢
    simp [World.pr, World.emit, List.filter_append, isCtrl, mctrl, cB, h0,
      show List.range 3 = [0, 1, 2] from rfl]

theorem any_isReadOf_eq_false (p : String) (hp : p ≠ "package.json") (l : List Event)
    (h : l.all mainEventOk = true) : l.any (isReadOf p) = false := by
  induction l with
  | nil => rfl
  | cons e rest ih =>
    simp only [List.all_cons, Bool.and_eq_true] at h
    obtain ⟨he, hrest⟩ := h
    have htail := ih hrest
    cases e with
    | readFile q =>
      have hq : q = "package.json" := by
        simpa [mainEventOk] using he
      subst hq
      simp [isReadOf, htail, Ne.symm hp]
    | _ => simp_all [isReadOf]

theorem writeThenRead_false_of_all (p : String) (hp : p ≠ "package.json")
    (tr : List Event) (h : tr.all mainEventOk = true) : writeThenRead p tr = false := by
  induction tr with
  | nil => rfl
  | cons e rest ih =>
    simp only [List.all_cons, Bool.and_eq_true] at h
    obtain ⟨he, hrest⟩ := h
    simp [writeThenRead, any_isReadOf_eq_false p hp rest hrest, ih hrest]

set_option maxHeartbeats 4000000 in
/-- C9 (amended): when package.json holds a JSON object whose scripts entry, if
present, is itself an object, a fault-free run of create_test_files rewrites
package.json so that every top-level key other than scripts keeps its old value,
every scripts entry other than the time-stamped key keeps its old value, and the
entry test-auto-commit-t, for t the clock reading, is set (added, or overwritten if
it already existed) to the echo command recording the timestamp. -/
theorem c9_package_json_update (w : World) (kvs0 : List (String × Json))
    (hF : noFault w)
    (hl : lookupFile w.fs "package.json" = some (FileData.jsonData (Json.obj kvs0)))
    (hshape : scriptsShapeOk kvs0 = true) :
    ∃ w', TestAutoCommit.create_test_files w = PyRes.ok () w' ∧
      ∃ kvsN, lookupFile w'.fs "package.json" =
          some (FileData.jsonData (Json.obj kvsN)) ∧
        (∀ k, k ≠ "scripts" → jLookup kvsN k = jLookup kvs0 k) ∧
        ∃ scrN, jLookup kvsN "scripts" = some (Json.obj scrN) ∧
          jLookup scrN ("test-auto-commit-" ++ toString (w.clock (w.clockIdx + 5))) =
            some (Json.str ("echo \"Test script added at " ++
              isoformat (w.clock (w.clockIdx + 4)) ++ "\"")) ∧
          (∀ k, k ≠ "test-auto-commit-" ++ toString (w.clock (w.clockIdx + 5)) →
            jLookup scrN k = jLookup (scriptsOrEmpty kvs0) k) := by
  obtain ⟨w1, hr⟩ := create_ok_of_noFault w hF
  refine ⟨w1, hr, ?_⟩
  have hb0 : w.ioFault w.ioIdx = false := hF _
  have hb1 : w.ioFault (w.ioIdx + 1) = false := hF _
  have hb2 : w.ioFault (w.ioIdx + 2) = false := hF _
  have hb3 : w.ioFault (w.ioIdx + 3) = false := hF _
  have hb4 : w.ioFault (w.ioIdx + 4) = false := hF _
  have hb5 : w.ioFault (w.ioIdx + 5) = false := hF _
  unfold TestAutoCommit.create_test_files TestAutoCommit.update_package_json at hr
  dsimp only [makedirs, writeWhole, readWhole, jsonLoad, asObj, asScriptsObj, now, randint,
    randomFloat, World.readClock, World.draw, World.ioStep, World.emit, World.pr,
    PyRes.bind] at hr
  simp [hb0, PyRes.bind] at hr
  simp [hb1, PyRes.bind] at hr
  simp [hb2, PyRes.bind] at hr
  simp [hb3, PyRes.bind] at hr
  simp [lookup_pkg_after_config, lookup_pkg_after_ts, hl, hb4, PyRes.bind] at hr
  rcases hjs : jLookup kvs0 "scripts" with _ | sv
  · simp [hjs, jLookup_append_one_self kvs0 "scripts" (Json.obj []) hjs, hb5,
      PyRes.bind] at hr
    subst hr
    refine ⟨_, lookupFile_setFile_self _ _ _, ?_, _, jLookup_setKey_self _ _ _, ?_, ?_⟩
    · intro k hk
      rw [jLookup_setKey_ne _ _ _ _ hk, jLookup_append_one_ne _ _ _ _ hk]
    · exact jLookup_setKey_self _ _ _
    · intro k hk
      rw [jLookup_setKey_ne _ _ _ _ hk]
      simp [scriptsOrEmpty, hjs]
  · rcases sv with _ | b2 | n2 | q2 | s2 | elems2 | scr0 <;>
      try simp [scriptsShapeOk, hjs] at hshape
    simp [hjs, hb5, PyRes.bind] at hr
    subst hr
    refine ⟨_, lookupFile_setFile_self _ _ _, ?_, _, jLookup_setKey_self _ _ _, ?_, ?_⟩
    · intro k hk
      rw [jLookup_setKey_ne _ _ _ _ hk]
    · exact jLookup_setKey_self _ _ _
    · intro k hk
      rw [jLookup_setKey_ne _ _ _ _ hk]
      simp [scriptsOrEmpty, hjs]

/-- C1: after any successful run of create_test_files, the file data/config.json
exists and contains a JSON object with a test_id key, a timestamp key, and a nested
settings object whose auto_commit_test value is true. -/
theorem c1_config_file_shape (w w' : World)
    (h : TestAutoCommit.create_test_files w = PyRes.ok () w') :
    ∃ kvs, lookupFile w'.fs "data/config.json" =
        some (FileData.jsonData (Json.obj kvs)) ∧
      (jLookup kvs "test_id").isSome = true ∧ (jLookup kvs "timestamp").isSome = true ∧
      ∃ skvs, jLookup kvs "settings" = some (Json.obj skvs) ∧
        jLookup skvs "auto_commit_test" = some (Json.bool true) := by
  have h0 : ¬ (TestAutoCommit.create_test_files w).exitCode ≠ 0 := by
    rw [h]
    simp [PyRes.exitCode]
  have hb0 : w.ioFault w.ioIdx = false := by
    cases hx : w.ioFault w.ioIdx
    · rfl
    · exact absurd ((create_exn_iff w).mpr (Or.inl hx)) h0
  have hb1 : w.ioFault (w.ioIdx + 1) = false := by
    cases hx : w.ioFault (w.ioIdx + 1)
    · rfl
    · exact absurd ((create_exn_iff w).mpr (Or.inr (Or.inl hx))) h0
  have hb2 : w.ioFault (w.ioIdx + 2) = false := by
    cases hx : w.ioFault (w.ioIdx + 2)
    · rfl
    · exact absurd ((create_exn_iff w).mpr (Or.inr (Or.inr (Or.inl hx)))) h0
  have hb3 : w.ioFault (w.ioIdx + 3) = false := by
    cases hx : w.ioFault (w.ioIdx + 3)
    · rfl
    · exact absurd ((create_exn_iff w).mpr (Or.inr (Or.inr (Or.inr hx)))) h0
  obtain ⟨tid, iso, rv, hlook, _, _, _, _⟩ :=
    create_content w _ hb0 hb1 hb2 hb3 (world_eq_of_ok _ _ _ h)
  exact ⟨[("test_id", Json.int tid), ("timestamp", Json.str iso),
    ("settings", Json.obj [("auto_commit_test", Json.bool true),
      ("random_value", Json.rat rv)])],
    hlook, rfl, rfl,
    ⟨[("auto_commit_test", Json.bool true), ("random_value", Json.rat rv)], rfl, rfl⟩⟩

/-- Witness for C1 at a concrete fault-free world with no package.json. -/
theorem c1_config_file_shape_witness :
    ∃ kvs, lookupFile ((TestAutoCommit.create_test_files wNoPkg).world).fs
        "data/config.json" = some (FileData.jsonData (Json.obj kvs)) ∧
      (jLookup kvs "test_id").isSome = true ∧ (jLookup kvs "timestamp").isSome = true ∧
      ∃ skvs, jLookup kvs "settings" = some (Json.obj skvs) ∧
        jLookup skvs "auto_commit_test" = some (Json.bool true) :=
  c1_config_file_shape wNoPkg _ rfl

/-- C10: in every config.json object written by a successful create_test_files run,
test_id is an integer between 1000 and 9999 and random_value is a rational in the
half-open unit interval. -/
theorem c10_config_value_bounds (w w' : World)
    (h : TestAutoCommit.create_test_files w = PyRes.ok () w') :
    ∃ kvs, lookupFile w'.fs "data/config.json" =
        some (FileData.jsonData (Json.obj kvs)) ∧
      (∃ n : Int, jLookup kvs "test_id" = some (Json.int n) ∧ 1000 ≤ n ∧ n ≤ 9999) ∧
      ∃ skvs, jLookup kvs "settings" = some (Json.obj skvs) ∧
        ∃ q : ℚ, jLookup skvs "random_value" = some (Json.rat q) ∧ 0 ≤ q ∧ q < 1 := by
  have h0 : ¬ (TestAutoCommit.create_test_files w).exitCode ≠ 0 := by
    rw [h]
    simp [PyRes.exitCode]
  have hb0 : w.ioFault w.ioIdx = false := by
    cases hx : w.ioFault w.ioIdx
    · rfl
    · exact absurd ((create_exn_iff w).mpr (Or.inl hx)) h0
  have hb1 : w.ioFault (w.ioIdx + 1) = false := by
    cases hx : w.ioFault (w.ioIdx + 1)
    · rfl
    · exact absurd ((create_exn_iff w).mpr (Or.inr (Or.inl hx))) h0
  have hb2 : w.ioFault (w.ioIdx + 2) = false := by
    cases hx : w.ioFault (w.ioIdx + 2)
    · rfl
    · exact absurd ((create_exn_iff w).mpr (Or.inr (Or.inr (Or.inl hx)))) h0
  have hb3 : w.ioFault (w.ioIdx + 3) = false := by
    cases hx : w.ioFault (w.ioIdx + 3)
    · rfl
    · exact absurd ((create_exn_iff w).mpr (Or.inr (Or.inr (Or.inr hx)))) h0
  obtain ⟨tid, iso, rv, hlook, ht1, ht2, hq1, hq2⟩ :=
    create_content w _ hb0 hb1 hb2 hb3 (world_eq_of_ok _ _ _ h)
  refine ⟨[("test_id", Json.int tid), ("timestamp", Json.str iso),
    ("settings", Json.obj [("auto_commit_test", Json.bool true),
      ("random_value", Json.rat rv)])],
    hlook, ⟨tid, rfl, ?_, ?_⟩,
    ⟨[("auto_commit_test", Json.bool true), ("random_value", Json.rat rv)], rfl,
      ⟨rv, rfl, hq1, hq2⟩⟩⟩
  · exact_mod_cast ht1
  · exact_mod_cast ht2

/-- Witness for C10 at a concrete fault-free world with no package.json. -/
theorem c10_config_value_bounds_witness :
    ∃ kvs, lookupFile ((TestAutoCommit.create_test_files wNoPkg).world).fs
        "data/config.json" = some (FileData.jsonData (Json.obj kvs)) ∧
      (∃ n : Int, jLookup kvs "test_id" = some (Json.int n) ∧ 1000 ≤ n ∧ n ≤ 9999) ∧
      ∃ skvs, jLookup kvs "settings" = some (Json.obj skvs) ∧
        ∃ q : ℚ, jLookup skvs "random_value" = some (Json.rat q) ∧ 0 ≤ q ∧ q < 1 :=
  c10_config_value_bounds wNoPkg _ rfl

/-- C3: whenever package.json exists and the four unprotected operations of
create_test_files do not fault, the run returns normally whatever happens inside the
package.json update; the update either completes with its success message or raises,
in which case the exception is caught and a warning naming it is printed. -/
theorem c3_update_exception_caught (w : World)
    (hpkg : (lookupFile w.fs "package.json").isSome = true)
    (hb0 : w.ioFault w.ioIdx = false) (hb1 : w.ioFault (w.ioIdx + 1) = false)
    (hb2 : w.ioFault (w.ioIdx + 2) = false) (hb3 : w.ioFault (w.ioIdx + 3) = false) :
    ∃ w', TestAutoCommit.create_test_files w = PyRes.ok () w' ∧
      (Event.print "✅ Updated package.json with test script" ∈ w'.events ∨
       ∃ s, Event.print ("⚠️ Could not update package.json: " ++ s) ∈ w'.events) := by
  rcases hr : TestAutoCommit.create_test_files w with ⟨u, w1⟩ | ⟨e, w1⟩
  · cases u
    exact ⟨w1, rfl,
      create_pkg_prints w w1 hb0 hb1 hb2 hb3 hpkg (world_eq_of_ok _ _ _ hr)⟩
  · exfalso
    have hne : (TestAutoCommit.create_test_files w).exitCode ≠ 0 := by
      rw [hr]
      simp [PyRes.exitCode]
    rcases (create_exn_iff w).mp hne with hb | hb | hb | hb <;> simp_all

/-- Witness for C3 at a concrete world whose package.json is not valid JSON, so the
update step raises and is caught. -/
theorem c3_update_exception_caught_witness :
    ∃ w', TestAutoCommit.create_test_files wBadPkg = PyRes.ok () w' ∧
      (Event.print "✅ Updated package.json with test script" ∈ w'.events ∨
       ∃ s, Event.print ("⚠️ Could not update package.json: " ++ s) ∈ w'.events) :=
  c3_update_exception_caught wBadPkg rfl rfl rfl rfl rfl

/-- C2 counterexample: in a fault-free run of main from an empty trace, there are
exactly three sixty-second sleeps but only three create_test_files calls in total,
and after the third sleep no create_test_files call follows, contradicting the claim
that the write is repeated after each sleep (which would make four calls). -/
theorem c2_counterexample :
    ((TestAutoCommit.main [] [] wNoPkg).world).events.countP isSleep60 = 3 ∧
    ((TestAutoCommit.main [] [] wNoPkg).world).events.countP isCreateCall = 3 ∧
    callsAfterSleeps (((TestAutoCommit.main [] [] wNoPkg).world).events) = false :=
  ⟨rfl, rfl, rfl⟩

/-- C2 (amended): main calls create_test_files once, then performs exactly three
sixty-second sleeps, calling create_test_files again after the first and second
sleeps only, so the control sequence of a fault-free run is
call, sleep, call, sleep, call, sleep. -/
theorem c2_control_sequence (a : List String) (e0 : List (String × String)) (w : World)
    (hF : noFault w) (h0 : w.events = []) :
    ∃ w', TestAutoCommit.main a e0 w = PyRes.ok () w' ∧
      ctrl w'.events = [Event.call "create_test_files", Event.sleep 60,
        Event.call "create_test_files", Event.sleep 60, Event.call "create_test_files",
        Event.sleep 60] :=
  main_noFault a e0 w hF h0

/-- Witness for the amended C2 at a concrete fault-free world. -/
theorem c2_control_sequence_witness :
    ∃ w', TestAutoCommit.main [] [] wNoPkg = PyRes.ok () w' ∧
      ctrl w'.events = [Event.call "create_test_files", Event.sleep 60,
        Event.call "create_test_files", Event.sleep 60, Event.call "create_test_files",
        Event.sleep 60] :=
  c2_control_sequence [] [] wNoPkg (fun n => rfl) rfl

/-- C4 counterexample: the external main returns the status value 3, yet the process
exits with 0, because the bare call discards the returned value. -/
theorem c4_counterexample :
    wReturns3.wsMcp = ExtBehavior.returns (some 3) ∧
    (ws_mcp_direct [] [] wReturns3).1 = 0 ∧ (0 : Int) ≠ 3 :=
  ⟨rfl, rfl, by decide⟩

/-- C4 (amended): the launcher prepends /app/ws-mcp/src to the module search path and
delegates to the external main; the process exits with the SystemExit status when
main raises SystemExit, with 0 when main returns normally (its return value is
discarded), and with 1 when main raises any other exception. -/
theorem c4_launcher_behaviour (a : List String) (e0 : List (String × String))
    (w : World) :
    (ws_mcp_direct a e0 w).2.sysPath = "/app/ws-mcp/src" :: w.sysPath ∧
    (∀ c, w.wsMcp = ExtBehavior.exits c → (ws_mcp_direct a e0 w).1 = c) ∧
    (∀ v, w.wsMcp = ExtBehavior.returns v → (ws_mcp_direct a e0 w).1 = 0) ∧
    (∀ m, w.wsMcp = ExtBehavior.raises m → (ws_mcp_direct a e0 w).1 = 1) := by
  rcases hw : w.wsMcp with v | c | m <;>
    refine ⟨?_, ?_, ?_, ?_⟩ <;>
      simp [ws_mcp_direct, World.emit, hw]

/-- Witness for the amended C4: a launcher run whose external main raises
SystemExit(7) exits with status 7 and has the prepended search path. -/
theorem c4_launcher_behaviour_witness :
    (ws_mcp_direct [] [] wExits7).2.sysPath = "/app/ws-mcp/src" :: wExits7.sysPath ∧
    (ws_mcp_direct [] [] wExits7).1 = 7 :=
  ⟨(c4_launcher_behaviour [] [] wExits7).1,
   (c4_launcher_behaviour [] [] wExits7).2.1 7 rfl⟩

/-- C5 counterexample: with package.json present, a fault-free main run writes
package.json and later opens it for reading again, and writes data/config.json three
times, so written files are neither written once nor never read back. -/
theorem c5_counterexample :
    writeThenRead "package.json" (((TestAutoCommit.main [] [] wPkg).world).events) =
      true ∧
    ((TestAutoCommit.main [] [] wPkg).world).events.countP
      (isWriteOf "data/config.json") = 3 :=
  ⟨rfl, rfl⟩

/-- C5 (amended): the only path the scripts ever open for reading is package.json,
which create_test_files reads back on each call when it exists; for every other path,
no write in any run of any script is ever followed by a read of that path. -/
theorem c5_no_read_back_except_pkg (a : List String) (e0 : List (String × String))
    (w : World) (p : String) (h0 : w.events = []) (hp : p ≠ "package.json") :
    writeThenRead p (((TestAutoCommit.main a e0 w).world).events) = false ∧
    writeThenRead p (((TestAutoCommit.create_test_files w).world).events) = false ∧
    writeThenRead p (((TestGitFix.main a e0 w).world).events) = false ∧
    writeThenRead p (((Hello.main a e0 w).world).events) = false ∧
    writeThenRead p ((ws_mcp_direct a e0 w).2.events) = false := by
  have hall : w.events.all mainEventOk = true := by
    rw [h0]
    rfl
  refine ⟨?_, ?_, ?_, ?_, ?_⟩
  · exact writeThenRead_false_of_all p hp _ (((main_run a e0 w _ rfl).1).trans hall)
  · exact writeThenRead_false_of_all p hp _ (((create_run w _ rfl).1).trans hall)
  · exact writeThenRead_false_of_all p hp _ (((gitfix_run a e0 w _ rfl).1).trans hall)
  · exact writeThenRead_false_of_all p hp _
      (by simp [Hello.main, World.pr, World.emit, PyRes.world, List.all_append,
        mainEventOk, h0])
  · rcases hw : w.wsMcp with v | c | m <;>
      exact writeThenRead_false_of_all p hp _
        (by simp [ws_mcp_direct, World.emit, hw, List.all_append, mainEventOk, h0])

/-- Witness for the amended C5 at a concrete world and path. -/
theorem c5_no_read_back_except_pkg_witness :
    writeThenRead "data/config.json"
      (((TestAutoCommit.main [] [] wPkg).world).events) = false ∧
    writeThenRead "data/config.json"
      (((TestAutoCommit.create_test_files wPkg).world).events) = false ∧
    writeThenRead "data/config.json"
      (((TestGitFix.main [] [] wPkg).world).events) = false ∧
    writeThenRead "data/config.json" (((Hello.main [] [] wPkg).world).events) = false ∧
    writeThenRead "data/config.json" ((ws_mcp_direct [] [] wPkg).2.events) = false :=
  c5_no_read_back_except_pkg [] [] wPkg "data/config.json" rfl (by decide)

/-- C6 counterexample: a fault-free create_test_files run creates the directories src
and data, and the launcher changes the interpreter module search path, so the scripts
do change externally visible state beyond file writes and console output. -/
theorem c6_counterexample :
    ((TestAutoCommit.create_test_files wNoPkg).world).dirs = ["src", "data"] ∧
    wNoPkg.dirs = [] ∧
    (ws_mcp_direct [] [] wNoPkg).2.sysPath = "/app/ws-mcp/src" :: wNoPkg.sysPath :=
  ⟨rfl, rfl, rfl⟩

/-- C6 (amended): besides file writes and console output, the scripts also create the
directories src and data, sleep, and the launcher prepends to the module search path;
no other externally visible state changes: the test scripts preserve the working
directory, the module search path and the external oracle, their directory creation
is limited to src and data, hello.py and the launcher leave the filesystem and
directories untouched, and the launcher changes exactly the module search path. -/
theorem c6_side_effects_frame (a : List String) (e0 : List (String × String))
    (w : World) :
    (((TestAutoCommit.main a e0 w).world).cwd = w.cwd ∧
     ((TestAutoCommit.main a e0 w).world).sysPath = w.sysPath ∧
     ((TestAutoCommit.main a e0 w).world).wsMcp = w.wsMcp ∧
     (∀ x, x ∈ ((TestAutoCommit.main a e0 w).world).dirs →
       x ∈ w.dirs ∨ x = "src" ∨ x = "data")) ∧
    (((TestGitFix.main a e0 w).world).cwd = w.cwd ∧
     ((TestGitFix.main a e0 w).world).sysPath = w.sysPath ∧
     ((TestGitFix.main a e0 w).world).wsMcp = w.wsMcp ∧
     ((TestGitFix.main a e0 w).world).dirs = w.dirs) ∧
    (((Hello.main a e0 w).world).cwd = w.cwd ∧
     ((Hello.main a e0 w).world).sysPath = w.sysPath ∧
     ((Hello.main a e0 w).world).dirs = w.dirs ∧
     ((Hello.main a e0 w).world).fs = w.fs) ∧
    ((ws_mcp_direct a e0 w).2.fs = w.fs ∧
     (ws_mcp_direct a e0 w).2.dirs = w.dirs ∧
     (ws_mcp_direct a e0 w).2.cwd = w.cwd ∧
     (ws_mcp_direct a e0 w).2.sysPath = "/app/ws-mcp/src" :: w.sysPath) := by
  obtain ⟨_, m2, m3, m4, _, m6⟩ := main_run a e0 w _ rfl
  obtain ⟨_, _, g3, g4, g5, _, _, _, g9⟩ := gitfix_run a e0 w _ rfl
  refine ⟨⟨m2, m3, m4, m6⟩, ⟨g3, g4, g5, g9⟩, ⟨rfl, rfl, rfl, rfl⟩, ?_, ?_, ?_, ?_⟩ <;>
    (rcases hw : w.wsMcp with v | c | m <;> simp [ws_mcp_direct, World.emit, hw])

/-- C7: exactly the failures outside the protected package.json update propagate:
create_test_files terminates with a non-zero status precisely when one of its four
unprotected operations (the two directory creations and the two file writes) faults,
test_git_fix.main precisely when its file write or directory listing faults, and
hello.main never fails. -/
theorem c7_unprotected_faults_raise (a : List String) (e0 : List (String × String))
    (w : World) :
    ((TestAutoCommit.create_test_files w).exitCode ≠ 0 ↔
      (w.ioFault w.ioIdx = true ∨ w.ioFault (w.ioIdx + 1) = true ∨
       w.ioFault (w.ioIdx + 2) = true ∨ w.ioFault (w.ioIdx + 3) = true)) ∧
    ((TestGitFix.main a e0 w).exitCode ≠ 0 ↔
      (w.ioFault w.ioIdx = true ∨ w.ioFault (w.ioIdx + 1) = true)) ∧
    (Hello.main a e0 w).exitCode = 0 :=
  ⟨create_exn_iff w, gitfix_exn_iff a e0 w, rfl⟩

/-- C8: the behaviour of the three test scripts and the launcher is entirely
independent of the command line and the environment: from the same starting world,
any two argument vectors and environments yield identical results. -/
theorem c8_argv_env_independent (a1 a2 : List String)
    (e1 e2 : List (String × String)) (w : World) :
    TestAutoCommit.main a1 e1 w = TestAutoCommit.main a2 e2 w ∧
    TestGitFix.main a1 e1 w = TestGitFix.main a2 e2 w ∧
    Hello.main a1 e1 w = Hello.main a2 e2 w ∧
    ws_mcp_direct a1 e1 w = ws_mcp_direct a2 e2 w :=
  ⟨rfl, rfl, rfl, rfl⟩

/-- C9 counterexample: when the scripts object already holds the key being added
(test-auto-commit-100, the clock being frozen at 100), create_test_files overwrites
the previously existing entry instead of preserving it, and the number of entries
does not grow, so no new key is added. -/
theorem c9_counterexample :
    lookupFile wCollide.fs "package.json" = some (FileData.jsonData (Json.obj
      [("scripts", Json.obj [("test-auto-commit-100", Json.str "old")])])) ∧
    ∃ w' scr, TestAutoCommit.create_test_files wCollide = PyRes.ok () w' ∧
      lookupFile w'.fs "package.json" =
        some (FileData.jsonData (Json.obj [("scripts", Json.obj scr)])) ∧
      scr.length = 1 ∧
      ∃ s, jLookup scr "test-auto-commit-100" = some (Json.str s) ∧ s ≠ "old" :=
  ⟨rfl, _, _, rfl, rfl, rfl, _, rfl, by decide⟩

/-- Witness for the amended C9 at a concrete world whose package.json holds one plain
key and no scripts entry. -/
theorem c9_package_json_update_witness :
    ∃ w', TestAutoCommit.create_test_files wPkg = PyRes.ok () w' ∧
      ∃ kvsN, lookupFile w'.fs "package.json" =
          some (FileData.jsonData (Json.obj kvsN)) ∧
        (∀ k, k ≠ "scripts" →
          jLookup kvsN k = jLookup [("name", Json.str "kibitz")] k) ∧
        ∃ scrN, jLookup kvsN "scripts" = some (Json.obj scrN) ∧
          jLookup scrN ("test-auto-commit-" ++
              toString (wPkg.clock (wPkg.clockIdx + 5))) =
            some (Json.str ("echo \"Test script added at " ++
              isoformat (wPkg.clock (wPkg.clockIdx + 4)) ++ "\"")) ∧
          (∀ k, k ≠ "test-auto-commit-" ++ toString (wPkg.clock (wPkg.clockIdx + 5)) →
            jLookup scrN k =
              jLookup (scriptsOrEmpty [("name", Json.str "kibitz")]) k) :=
  c9_package_json_update wPkg [("name", Json.str "kibitz")] (fun n => rfl) rfl rfl

end Kibitz
